import Mathlib

/-!
Shallow embedding of the ClarityWorks advisor dashboard data model and
operations (client store, interaction store, free-text record parser,
AI adapter coercion, mock CRM generation), with theorems settling the
specification claims about them.

Modelling conventions:
* JavaScript numbers are modelled as `Option ℚ`, with `none` standing for
  the JavaScript `NaN` value (floating-point rounding is irrelevant to the
  amounts involved in the claims).
* `localStorage` contents are modelled at the level of their JSON parse
  outcome (`RawStored`): a key is absent (or holds a falsy empty string),
  holds unparseable text, or holds text that parses to a JSON value.
* Nondeterministic id generation (`Date.now()` plus a random suffix) is
  modelled by threading explicit generation parameters.
-/

/-- Model of a JavaScript JSON value (as produced by `JSON.parse`).
Numbers are rationals; `null` is a constructor. -/
inductive Json where
  | null : Json
  | bool (b : Bool) : Json
  | num (q : ℚ) : Json
  | str (s : String) : Json
  | arr (elems : List Json) : Json
  | obj (fields : List (String × Json)) : Json

/-- JavaScript truthiness of a JSON value: `null`, `false`, `0` and the
empty string are falsy; arrays and objects are always truthy. -/
def Json.truthy : Json → Bool
  | .null => false
  | .bool b => b
  | .num q => decide (q ≠ 0)
  | .str s => decide (s ≠ "")
  | .arr _ => true
  | .obj _ => true

/-- Model of JavaScript member access `j.k`: a field lookup on an object,
`undefined` (`none`) on every other shape. -/
def Json.getField : Json → String → Option Json
  | .obj fields, k => fields.lookup k
  | _, _ => none

/-- Rendering of a rational as a decimal-ish string; stands in for the
JavaScript number-to-string conversion (exact digit output of non-integer
rationals is not relied on by any claim). -/
def renderRat (q : ℚ) : String :=
  if q.den = 1 then toString q.num else toString q.num ++ "/" ++ toString q.den

mutual
/-- Model of `JSON.stringify` (string escaping is not modelled; no claim
depends on the rendering of strings containing quotes). -/
def Json.render : Json → String
  | .null => "null"
  | .bool true => "true"
  | .bool false => "false"
  | .num q => renderRat q
  | .str s => "\"" ++ s ++ "\""
  | .arr elems => "[" ++ Json.renderList elems ++ "]"
  | .obj fields => "\x7b" ++ Json.renderObj fields ++ "\x7d"

/-- Comma-separated rendering of a JSON array body. -/
def Json.renderList : List Json → String
  | [] => ""
  | [x] => Json.render x
  | x :: xs => Json.render x ++ "," ++ Json.renderList xs

/-- Comma-separated rendering of a JSON object body. -/
def Json.renderObj : List (String × Json) → String
  | [] => ""
  | [(k, v)] => "\"" ++ k ++ "\":" ++ Json.render v
  | (k, v) :: fs => "\"" ++ k ++ "\":" ++ Json.render v ++ "," ++ Json.renderObj fs
end

/-- Model of the JavaScript number type: `none` is `NaN`. -/
abbrev JsNum := Option ℚ

/-- Digits of a character list read as a natural number
(`foldl (a * 10 + digit)`). -/
def digitsToNat (cs : List Char) : ℕ :=
  cs.foldl (fun a c => a * 10 + (c.toNat - 48)) 0

/-- Value of a fractional digit block: `digits / 10 ^ length`. -/
def fracVal (cs : List Char) : ℚ :=
  (digitsToNat cs : ℚ) / (10 ^ cs.length)

/-- Model of JavaScript `parseFloat` restricted to strings over the
alphabet of digits and dots (the only inputs it receives here, since the
caller first strips every other character): the longest prefix of the form
`digits [ . digits ]` is parsed; a string with no leading digits and no
digits right after a leading dot gives `NaN` (`none`). -/
def jsParseFloat (s : String) : JsNum :=
  let cs := s.toList
  let intPart := cs.takeWhile Char.isDigit
  let rest := cs.dropWhile Char.isDigit
  match rest with
  | '.' :: r2 =>
      let fracPart := r2.takeWhile Char.isDigit
      if intPart.isEmpty && fracPart.isEmpty then none
      else some ((digitsToNat intPart : ℚ) + fracVal fracPart)
  | _ => if intPart.isEmpty then none else some (digitsToNat intPart)

/-- Model of `s.replace(/[^0-9.]/g, "")`: keep only digits and dots. -/
def stripNonNumeric (s : String) : String :=
  String.mk (s.toList.filter (fun c => c.isDigit || c = '.'))

/-- Model of JavaScript `String.prototype.startsWith`. -/
def strStartsWith (s p : String) : Bool :=
  s.toList.take p.toList.length == p.toList

/-- Truthiness of an optional environment string (`undefined` and the empty
string are falsy). -/
def strTruthy : Option String → Bool
  | none => false
  | some s => decide (s ≠ "")

/-- Model of JavaScript `s.split(sep)` for a one-character separator,
built by structural recursion over the characters (the separators used
here are `'|'` and newline): the empty string splits to `[""]`, exactly as
in JavaScript. -/
def jsSplitOn (sep : Char) (s : String) : List String :=
  (s.toList.foldr
    (fun c acc =>
      match acc with
      | [] => [[c]]
      | g :: gs => if c = sep then [] :: g :: gs else (c :: g) :: gs)
    [[]]).map String.mk

/-- Model of JavaScript `s.trim()`: whitespace removed from both ends. -/
def jsTrim (s : String) : String :=
  String.mk
    (((s.toList.dropWhile Char.isWhitespace).reverse.dropWhile
      Char.isWhitespace).reverse)

/-- Model of JavaScript `s.toLowerCase()` on the ASCII strings involved. -/
def jsToLower (s : String) : String :=
  String.mk (s.toList.map Char.toLower)

/-- `src/types.ts`: a financial goal owned by a client. Currency amounts
are JavaScript numbers (`JsNum`). -/
structure Goal where
  id : String
  name : String
  targetAmount : JsNum
  currentAmount : JsNum
  targetDate : String
deriving DecidableEq

/-- `src/types.ts`: an account owned by a client. `type` is the string
union `IRA | Brokerage | 401k | Roth IRA | Trust`, modelled as a string
exactly as in the source. -/
structure Account where
  id : String
  name : String
  type : String
  balance : JsNum
deriving DecidableEq

/-- `src/types.ts`: a client record. `riskProfile` is the string union
`Conservative | Moderate | Aggressive | Moderate-Aggressive`. -/
structure Client where
  id : String
  name : String
  aum : JsNum
  riskProfile : String
  goals : List Goal
  accounts : List Account
  advisor : String
  lastContact : String
deriving DecidableEq

/-- Modelled from the spec: the `Interaction` interface is referenced from
`./types` by `storageService.ts` and `App.tsx` but its declaration is not
among the provided sources; spec section 3 fixes its shape:
`{ id, clientId, type in (meeting, call, email, note), title, date, notes,
actionItems: optional ordered list of strings, createdAt }`. -/
structure Interaction where
  id : String
  clientId : String
  type : String
  title : String
  date : String
  notes : String
  actionItems : Option (List String)
  createdAt : String
deriving DecidableEq

/-- `src/types.ts`: a proposed CRM field update. -/
structure FieldUpdate where
  id : String
  fieldName : String
  currentValue : String
  proposedValue : String
  confidence : JsNum
  sourceSnippet : String
deriving DecidableEq

/-- `src/types.ts`: a follow-up task (named `Task` in the source; renamed
here because `Task` is taken by the Lean core library). -/
structure CrmTask where
  id : String
  owner : String
  description : String
  dueDate : Option String
  priority : String
deriving DecidableEq

/-- `src/types.ts`: the audit-log block of a CRM update result. -/
structure AuditLog where
  summary : String
  tags : List String
  timestamp : String
deriving DecidableEq

/-- `src/types.ts`: the transient result of CRM update generation. -/
structure CRMUpdateResult where
  fieldUpdates : List FieldUpdate
  tasks : List CrmTask
  auditLog : AuditLog
deriving DecidableEq

/-- `src/unnamed/part_002`: the transient meeting-prep record. -/
structure MeetingPrep where
  clientSnapshot : String
  recentContext : String
  keyTopicsToDiscuss : List String
  openActionItems : List String
  questionsToAsk : List String
  potentialConcerns : String
  relationshipNotes : String
deriving DecidableEq

/-- `src/mockClients.ts`: the two built-in sample clients. -/
def mockClients : List Client :=
  [ { id := "client-001"
    , name := "Margaret Chen"
    , aum := some 2450000
    , riskProfile := "Moderate"
    , advisor := "Sarah Mitchell"
    , lastContact := "2024-11-15"
    , goals :=
      [ { id := "goal-001", name := "Retirement at 62"
        , targetAmount := some 3000000, currentAmount := some 2100000
        , targetDate := "2029-06-01" }
      , { id := "goal-002", name := "College Fund (Emma)"
        , targetAmount := some 250000, currentAmount := some 180000
        , targetDate := "2027-09-01" }
      , { id := "goal-003", name := "Vacation Home Down Payment"
        , targetAmount := some 150000, currentAmount := some 95000
        , targetDate := "2026-03-01" } ]
    , accounts :=
      [ { id := "acc-001", name := "Traditional IRA", type := "IRA"
        , balance := some 890000 }
      , { id := "acc-002", name := "Joint Brokerage", type := "Brokerage"
        , balance := some 1250000 }
      , { id := "acc-003", name := "Roth IRA", type := "Roth IRA"
        , balance := some 310000 } ] }
  , { id := "client-002"
    , name := "Robert & Diana Hartwell"
    , aum := some 4875000
    , riskProfile := "Moderate-Aggressive"
    , advisor := "Sarah Mitchell"
    , lastContact := "2024-11-28"
    , goals :=
      [ { id := "goal-004", name := "Legacy Planning"
        , targetAmount := some 5000000, currentAmount := some 4200000
        , targetDate := "2035-01-01" }
      , { id := "goal-005", name := "Charitable Foundation"
        , targetAmount := some 1000000, currentAmount := some 650000
        , targetDate := "2028-12-01" } ]
    , accounts :=
      [ { id := "acc-004", name := "Hartwell Family Trust", type := "Trust"
        , balance := some 2800000 }
      , { id := "acc-005", name := "Robert 401(k)", type := "401k"
        , balance := some 1450000 }
      , { id := "acc-006", name := "Joint Investment Account"
        , type := "Brokerage", balance := some 625000 } ] }
  ]

/-- Content of a persistent-storage key, modelled at the level of its JSON
parse outcome: `absent` (key missing, or a falsy empty string),
`unparseable` (`JSON.parse` throws), or `parsed j`. -/
inductive RawStored where
  | absent : RawStored
  | unparseable : RawStored
  | parsed (j : Json) : RawStored

/-- `src/unnamed/part_001` `getCustomClients`, at the raw-storage level:
`try { const data = localStorage.getItem(KEY); return data ? JSON.parse(data) : [] } catch { return [] }`.
An absent key gives the empty array; a parse exception is caught and gives
the empty array; a successfully parsed value is returned as-is (the source
performs no shape validation on it). -/
def getCustomClientsRaw : RawStored → Json
  | .absent => .arr []
  | .unparseable => .arr []
  | .parsed j => j

/-- `src/storageService.ts` `getAllInteractions`, at the raw-storage level
(the body is identical to `getCustomClients`). -/
def getAllInteractionsRaw : RawStored → Json
  | .absent => .arr []
  | .unparseable => .arr []
  | .parsed j => j

/-- The fields of a client other than its id (`Omit<Client, 'id'>`). -/
structure ClientData where
  name : String
  aum : JsNum
  riskProfile : String
  goals : List Goal
  accounts : List Account
  advisor : String
  lastContact : String
deriving DecidableEq

/-- A `Partial<Client>` update object: every field optional. -/
structure ClientPatch where
  id : Option String := none
  name : Option String := none
  aum : Option JsNum := none
  riskProfile : Option String := none
  goals : Option (List Goal) := none
  accounts : Option (List Account) := none
  advisor : Option String := none
  lastContact : Option String := none

/-- JavaScript object spread `{ ...c, ...p }` for a client and a partial
update. -/
def applyPatch (c : Client) (p : ClientPatch) : Client :=
  { id := p.id.getD c.id
  , name := p.name.getD c.name
  , aum := p.aum.getD c.aum
  , riskProfile := p.riskProfile.getD c.riskProfile
  , goals := p.goals.getD c.goals
  , accounts := p.accounts.getD c.accounts
  , advisor := p.advisor.getD c.advisor
  , lastContact := p.lastContact.getD c.lastContact }

/-- The two persistent-storage keys, at the typed level used by the store
operations: the custom-client list under `clarityworks_clients` and the
interaction list under `clarityworks_interactions`. -/
structure Storage where
  customClients : List Client
  interactions : List Interaction
deriving DecidableEq

/-- `src/unnamed/part_001` `getAllClients`: the built-in sample clients
followed by the persisted custom clients. -/
def getAllClients (s : Storage) : List Client :=
  mockClients ++ s.customClients

/-- `src/unnamed/part_001` `addClient`: appends a new client whose id is
`client-custom-${Date.now()}-${random}` to the persisted custom list and
returns it. The timestamp and random suffix are threaded as `now`/`rand`. -/
def addClient (cs : List Client) (d : ClientData) (now : ℕ) (rand : String) :
    Client × List Client :=
  let c : Client :=
    { id := "client-custom-" ++ toString now ++ "-" ++ rand
    , name := d.name, aum := d.aum, riskProfile := d.riskProfile
    , goals := d.goals, accounts := d.accounts
    , advisor := d.advisor, lastContact := d.lastContact }
  (c, cs ++ [c])

/-- `src/unnamed/part_001` `updateClient`: replaces the first custom client
whose id matches (`findIndex`) with its spread-merge against the update;
returns `null` (`none`) and leaves the list untouched when no id matches. -/
def updateClient : List Client → String → ClientPatch →
    Option Client × List Client
  | [], _, _ => (none, [])
  | c :: cs, id, p =>
      if c.id = id then
        (some (applyPatch c p), applyPatch c p :: cs)
      else
        let r := updateClient cs id p
        (r.1, c :: r.2)

/-- `src/unnamed/part_001` `deleteClient`: filters the persisted custom
list by id; reports `false` and writes nothing when the filter removed
nothing. -/
def deleteClient (cs : List Client) (id : String) : Bool × List Client :=
  let filtered := cs.filter (fun c => c.id ≠ id)
  if filtered.length = cs.length then (false, cs) else (true, filtered)

/-- `src/unnamed/part_001` `isCustomClient`:
`id.startsWith('client-custom-')`. -/
def isCustomClient (id : String) : Bool :=
  strStartsWith id "client-custom-"

/-- `src/unnamed/part_001` `createGoal`: builds a goal record; the
generated id (`goal-${Date.now()}-${random}`) is threaded as `id`. -/
def createGoal (id : String) (name : String) (targetAmount currentAmount : JsNum)
    (targetDate : String) : Goal :=
  { id := id, name := name, targetAmount := targetAmount
  , currentAmount := currentAmount, targetDate := targetDate }

/-- `src/unnamed/part_001` `createAccount`: builds an account record; the
generated id (`acc-${Date.now()}-${random}`) is threaded as `id`. -/
def createAccount (id : String) (name : String) (type : String)
    (balance : JsNum) : Account :=
  { id := id, name := name, type := type, balance := balance }

/-- One invocation of a Client Store operation, with the nondeterministic
inputs of `create` (timestamp, random suffix) made explicit. `list` and
`isCustom` are pure reads. -/
inductive ClientOp where
  | list : ClientOp
  | create (d : ClientData) (now : ℕ) (rand : String) : ClientOp
  | update (id : String) (p : ClientPatch) : ClientOp
  | remove (id : String) : ClientOp
  | isCustom (id : String) : ClientOp

/-- Effect of one Client Store operation on the persistent storage. -/
def applyClientOp (s : Storage) : ClientOp → Storage
  | .list => s
  | .create d now rand => { s with customClients := (addClient s.customClients d now rand).2 }
  | .update id p => { s with customClients := (updateClient s.customClients id p).2 }
  | .remove id => { s with customClients := (deleteClient s.customClients id).2 }
  | .isCustom _ => s

/-- Effect of a sequence of Client Store operations. -/
def runClientOps (s : Storage) : List ClientOp → Storage
  | [] => s
  | op :: ops => runClientOps (applyClientOp s op) ops

/-- Numeric key of an event-date string: its digits read as a number.
For the ISO `YYYY-MM-DD` dates this store holds, comparing these keys
agrees with comparing `new Date(s).getTime()`, which is what the source
comparator uses. -/
def dateKey (s : String) : ℕ :=
  digitsToNat (s.toList.filter Char.isDigit)

/-- The order produced by the comparator
`(a, b) => new Date(b.date).getTime() - new Date(a.date).getTime()`:
`a` preceding `b` means `b`'s event date is not later than `a`'s. -/
def descByDate (a b : Interaction) : Prop :=
  dateKey b.date ≤ dateKey a.date

instance : DecidableRel descByDate :=
  fun _ _ => Nat.decLe _ _

instance : IsTotal Interaction descByDate :=
  ⟨fun a b => (Nat.le_total (dateKey b.date) (dateKey a.date)).imp id id⟩

instance : IsTrans Interaction descByDate :=
  ⟨fun _ _ _ h h2 => Nat.le_trans h2 h⟩

/-- `src/storageService.ts` `getClientInteractions`: filter the stored
interaction list by client id, then sort by event date descending.
`Array.prototype.sort` is a stable sort (ECMAScript 2019), and a stable
sort by a key is unique, so the stable `List.insertionSort` models it
exactly (an element is inserted before every element whose key it equals
or exceeds). -/
def getClientInteractions (all : List Interaction) (clientId : String) :
    List Interaction :=
  List.insertionSort descByDate (all.filter (fun i => i.clientId == clientId))

/-- The fields of an interaction other than its generated id and creation
timestamp (`Omit<Interaction, 'id' | 'createdAt'>`). -/
structure InteractionData where
  clientId : String
  date : String
  type : String
  title : String
  notes : String
  actionItems : Option (List String)
deriving DecidableEq

/-- `src/storageService.ts` `addInteraction`: appends a new interaction
whose id is `interaction-${Date.now()}-${random}` and whose `createdAt` is
the current timestamp. Id generation is modelled by a counter threaded with
the stored list; `today` models `new Date().toISOString()`. -/
def addInteraction (st : List Interaction × ℕ) (today : String)
    (d : InteractionData) : Interaction × (List Interaction × ℕ) :=
  let i : Interaction :=
    { id := "interaction-" ++ toString st.2
    , clientId := d.clientId, type := d.type, title := d.title
    , date := d.date, notes := d.notes, actionItems := d.actionItems
    , createdAt := today }
  (i, (st.1 ++ [i], st.2 + 1))

/-- `src/storageService.ts`: the sample interactions seeded when
`clientId === 'client-001'`. -/
def sampleInteractions001 : List InteractionData :=
  [ { clientId := "client-001", date := "2024-11-15", type := "meeting"
    , title := "Quarterly Portfolio Review"
    , notes := "Met with Margaret to review Q3 performance. She expressed concerns about market volatility affecting her retirement timeline. Discussed her daughter Emma\x27s college plans - now looking at Georgetown. Margaret mentioned possibly retiring at 60 instead of 62 since James is already semi-retired."
    , actionItems := some ["Run retirement projection for age 60", "Research Georgetown tuition costs", "Review risk allocation"] }
  , { clientId := "client-001", date := "2024-10-20", type := "call"
    , title := "Market Volatility Check-in"
    , notes := "Quick call after October market swings. Margaret was nervous about the drops. Reassured her about long-term strategy. She asked about moving some funds to more conservative positions. Agreed to discuss at next meeting."
    , actionItems := some ["Prepare conservative rebalancing options"] }
  , { clientId := "client-001", date := "2024-09-05", type := "meeting"
    , title := "Annual Planning Session"
    , notes := "Annual review with Margaret and James. Goals remain: retirement at 62, college fund for Emma, vacation home. Vacation home timeline pushed back due to interest rates. All accounts performing well. Discussed tax-loss harvesting opportunities."
    , actionItems := some ["Update financial plan document", "Schedule tax planning call with accountant"] } ]

/-- `src/storageService.ts`: the sample interactions seeded by the `else`
branch — taken for every client id other than `'client-001'`. Note all
three records carry `clientId := "client-002"`. -/
def sampleInteractions002 : List InteractionData :=
  [ { clientId := "client-002", date := "2024-11-28", type := "meeting"
    , title := "Year-End Planning Session"
    , notes := "Met with Robert and Diana via video call from Scottsdale. Discussed charitable giving strategy - they want to accelerate DAF contributions and bunch donations. Robert turns 73 next year, need to plan for RMDs. They\x27re considering selling the Boston property. Also want to set up 529 plans for all four grandchildren."
    , actionItems := some ["Model Roth conversion scenarios", "Prepare DAF strategy memo", "Initiate 529 setup", "Analyze Boston property sale tax impact"] }
  , { clientId := "client-002", date := "2024-10-15", type := "call"
    , title := "Trust Document Update"
    , notes := "Diana called about updating trust beneficiaries. Want to add provisions for grandchildren. Referred to estate attorney for document updates. Also asked about increasing charitable foundation contributions."
    , actionItems := some ["Connect with estate attorney", "Review foundation contribution limits"] }
  , { clientId := "client-002", date := "2024-08-22", type := "meeting"
    , title := "Mid-Year Review"
    , notes := "Strong first half performance. Tech allocation doing well. Robert happy with returns. Discussed legacy planning goals - on track. Diana mentioned grandchildren more frequently, hinting at future education planning."
    , actionItems := some ["Research 529 options for next meeting"] } ]

/-- `src/storageService.ts` `initializeSampleInteractions`: a no-op when
the given client id already has interactions; otherwise adds, one by one,
the `client-001` samples when `clientId === 'client-001'` and the
`client-002` samples for every other id. -/
def initializeSampleInteractions (st : List Interaction × ℕ)
    (clientId today : String) : List Interaction × ℕ :=
  if (getClientInteractions st.1 clientId).length > 0 then st
  else
    (if clientId = "client-001" then sampleInteractions001
     else sampleInteractions002).foldl
      (fun acc d => (addInteraction acc today d).2) st

/-- A pipe-delimited line field: `parts[i]` after
`line.split('|').map(p => p.trim())`; `none` models an out-of-range index
(`undefined`). -/
def lineParts (line : String) : List String :=
  (jsSplitOn '|' line).map jsTrim

/-- `parts[i] || dflt`: the default is taken both when the index is out of
range (`undefined`) and when the trimmed field is the falsy empty string. -/
def partOr (p : Option String) (dflt : String) : String :=
  match p with
  | none => dflt
  | some s => if s = "" then dflt else s

/-- A numeric field of a pipe-delimited line:
`parseFloat(parts[i]?.replace(/[^0-9.]/g, '') || '0')`. A missing field or
one that strips to the empty string parses the literal `'0'`; otherwise
the stripped text goes to `parseFloat`, whose failure is `NaN`, not 0. -/
def numField (p : Option String) : JsNum :=
  match p with
  | none => some 0
  | some s =>
      let t := stripNonNumeric s
      if t = "" then some 0 else jsParseFloat t

/-- `src/App.tsx` `handleAddClient`, goal line branch: one line
`"Goal Name | target | current | date"` mapped through `createGoal`
(the generated id is threaded as `id`, the current date as `today`). -/
def goalFromLine (id today line : String) : Goal :=
  let parts := lineParts line
  createGoal id
    (partOr (parts.get? 0) "Goal")
    (numField (parts.get? 1))
    (numField (parts.get? 2))
    (partOr (parts.get? 3) today)

/-- `src/App.tsx` `handleAddClient`: the fixed account-type synonym table. -/
def typeMap : List (String × String) :=
  [ ("ira", "IRA")
  , ("traditional ira", "IRA")
  , ("roth", "Roth IRA")
  , ("roth ira", "Roth IRA")
  , ("401k", "401k")
  , ("401(k)", "401k")
  , ("brokerage", "Brokerage")
  , ("trust", "Trust") ]

/-- `src/App.tsx` `handleAddClient`, account line branch: the type field,
defaulted to `'brokerage'` when missing, is lower-cased and looked up in
the synonym table, defaulting to `Brokerage`. -/
def accountTypeOf (p : Option String) : String :=
  let rawType := jsToLower (partOr p "brokerage")
  (typeMap.lookup rawType).getD "Brokerage"

/-- `src/App.tsx` `handleAddClient`, account line branch: one line
`"Account Name | type | balance"` mapped through `createAccount`. -/
def accountFromLine (id line : String) : Account :=
  let parts := lineParts line
  createAccount id
    (partOr (parts.get? 0) "Account")
    (accountTypeOf (parts.get? 1))
    (numField (parts.get? 2))

/-- Model of the TypeScript unchecked read `g.name` on a parsed JSON
element where a string is expected: a string passes through unchanged
(non-string shapes, which the source's cast would let flow through
untyped, are modelled as the empty string; no claim exercises them). -/
def jsFieldStr (v : Option Json) : String :=
  match v with
  | some (.str s) => s
  | _ => ""

/-- Model of the TypeScript unchecked read `g.targetAmount` where a number
is expected: a JSON number passes through; `null` — which is how
`JSON.stringify` serializes `NaN` — and every other shape give a
not-a-number. -/
def jsFieldNum (v : Option Json) : JsNum :=
  match v with
  | some (.num q) => some q
  | _ => none

/-- `src/App.tsx` `handleAddClient`, goal JSON branch: when the input text
parses as a JSON array, each element is mapped through `createGoal` with a
fresh id; a parsed non-array leaves the goal list empty. -/
def parseGoalsJson (gen : ℕ) (j : Json) : List Goal :=
  match j with
  | .arr elems =>
      elems.mapIdx (fun idx e =>
        createGoal ("goal-" ++ toString (gen + idx))
          (jsFieldStr (e.getField "name"))
          (jsFieldNum (e.getField "targetAmount"))
          (jsFieldNum (e.getField "currentAmount"))
          (jsFieldStr (e.getField "targetDate")))
  | _ => []

/-- `src/App.tsx` `handleAddClient`, account JSON branch: when the input
text parses as a JSON array, each element is mapped through
`createAccount` with a fresh id (the `type` flows through the unchecked
cast, with no synonym mapping). -/
def parseAccountsJson (gen : ℕ) (j : Json) : List Account :=
  match j with
  | .arr elems =>
      elems.mapIdx (fun idx e =>
        createAccount ("acc-" ++ toString (gen + idx))
          (jsFieldStr (e.getField "name"))
          (jsFieldStr (e.getField "type"))
          (jsFieldNum (e.getField "balance")))
  | _ => []

/-- The free-text input to the record parser, modelled by its JSON parse
outcome: `jsonOk j` when `JSON.parse` succeeds with `j`, `jsonErr text`
when it throws and the pipe-delimited line branch runs on the raw text. -/
inductive ParsedText where
  | jsonOk (j : Json) : ParsedText
  | jsonErr (text : String) : ParsedText

/-- The non-empty lines of a text block:
`text.split('\n').filter(l => l.trim())`. -/
def nonEmptyLines (text : String) : List String :=
  (jsSplitOn '\n' text).filter (fun l => jsTrim l ≠ "")

/-- `src/App.tsx` `handleAddClient`, full goal-text parser: the JSON
branch when the text parses, the per-line pipe branch otherwise. -/
def parseGoalsText (today : String) (gen : ℕ) : ParsedText → List Goal
  | .jsonOk j => parseGoalsJson gen j
  | .jsonErr text =>
      (nonEmptyLines text).mapIdx (fun idx line =>
        goalFromLine ("goal-" ++ toString (gen + idx)) today line)

/-- `src/App.tsx` `handleAddClient`, full account-text parser. -/
def parseAccountsText (gen : ℕ) : ParsedText → List Account
  | .jsonOk j => parseAccountsJson gen j
  | .jsonErr text =>
      (nonEmptyLines text).mapIdx (fun idx line =>
        accountFromLine ("acc-" ++ toString (gen + idx)) line)

/-- The id-less value content of a goal (what the round-trip through the
parser preserves; ids are freshly generated on every parse). -/
def goalVals (g : Goal) : String × JsNum × JsNum × String :=
  (g.name, g.targetAmount, g.currentAmount, g.targetDate)

/-- The id-less value content of an account. -/
def accountVals (a : Account) : String × String × JsNum :=
  (a.name, a.type, a.balance)

/-- JSON-array serialization of a goal record (`JSON.stringify` of the
stored object): `NaN` amounts serialize as `null`. -/
def encodeGoal (g : Goal) : Json :=
  .obj
    [ ("id", .str g.id)
    , ("name", .str g.name)
    , ("targetAmount", match g.targetAmount with | some q => .num q | none => .null)
    , ("currentAmount", match g.currentAmount with | some q => .num q | none => .null)
    , ("targetDate", .str g.targetDate) ]

/-- JSON-array serialization of an account record. -/
def encodeAccount (a : Account) : Json :=
  .obj
    [ ("id", .str a.id)
    , ("name", .str a.name)
    , ("type", .str a.type)
    , ("balance", match a.balance with | some q => .num q | none => .null) ]

/-- The distinct failure modes of an AI Adapter operation, one per throw
site of the source (spec section 7 names the first `ConfigurationError`,
the next two `UpstreamError`, the last `ParseError`). -/
inductive AiError where
  | configuration (msg : String) : AiError
  | upstream (msg : String) : AiError
  | noContent : AiError
  | parseFailure (msg : String) : AiError
deriving DecidableEq

/-- Outcome of the single network round trip of an AI Adapter operation,
modelled at the level the source inspects it: an HTTP failure (with the
provider message extracted from the error body, if any, and the status
code), a response with missing/empty message content, or message content
with its JSON parse outcome after code-fence stripping (`none` when
`JSON.parse` throws). -/
inductive Upstream where
  | httpError (msg : Option String) (status : ℕ) : Upstream
  | noContent : Upstream
  | content (parse : Option Json) : Upstream

/-- `src/unnamed/part_002` `ensureString`: a string passes through;
`null`/`undefined` give the empty string; objects (arrays included) go
through `JSON.stringify`; remaining primitives through `String(...)` —
both modelled by `Json.render`. -/
def ensureString : Json → String
  | .str s => s
  | .null => ""
  | v => Json.render v

/-- `ensureString` applied to a member access that may be `undefined`. -/
def ensureStringOpt : Option Json → String
  | none => ""
  | some v => ensureString v

/-- `src/unnamed/part_002` `ensureStringArray`:
`if (!value) return []` — so every falsy value (absent, `null`, empty
string, `0`, `false`) gives the empty list; an array maps `ensureString`
over its elements; any other (truthy) value is wrapped in a one-element
list. -/
def ensureStringArray : Option Json → List String
  | none => []
  | some v =>
      if v.truthy = false then []
      else match v with
        | .arr elems => elems.map ensureString
        | w => [ensureString w]

/-- `src/unnamed/part_002` `generateMeetingPrep`, success-path coercion of
the parsed provider payload into a `MeetingPrep`. -/
def coerceMeetingPrep (j : Json) : MeetingPrep :=
  { clientSnapshot := ensureStringOpt (j.getField "clientSnapshot")
  , recentContext := ensureStringOpt (j.getField "recentContext")
  , keyTopicsToDiscuss := ensureStringArray (j.getField "keyTopicsToDiscuss")
  , openActionItems := ensureStringArray (j.getField "openActionItems")
  , questionsToAsk := ensureStringArray (j.getField "questionsToAsk")
  , potentialConcerns := ensureStringOpt (j.getField "potentialConcerns")
  , relationshipNotes := ensureStringOpt (j.getField "relationshipNotes") }

/-- Dispatch on the network outcome shared by both adapter operations:
`!response.ok` throws the provider message (or `API request failed:
<status>`); missing content throws `No response from OpenAI`; a content
parse exception throws the operation's parse-failure message. -/
def handleUpstream (parseErrMsg : String) (ok : Json → Except AiError α) :
    Upstream → Except AiError α
  | .httpError msg status =>
      .error (.upstream (msg.getD ("API request failed: " ++ toString status)))
  | .noContent => .error .noContent
  | .content none => .error (.parseFailure parseErrMsg)
  | .content (some j) => ok j

/-- `src/unnamed/part_002` `generateMeetingPrep`: the API key
(`import.meta.env.VITE_OPENAI_API_KEY`) is checked first — a falsy key
throws before the request is built or sent. The second component counts
the network requests issued. -/
def generateMeetingPrep (apiKey : Option String) (resp : Upstream) :
    Except AiError MeetingPrep × ℕ :=
  if strTruthy apiKey = false then
    (.error (.configuration "Missing OpenAI API key. Set VITE_OPENAI_API_KEY in your .env file."), 0)
  else
    (handleUpstream "Failed to parse AI response. Please try again."
      (fun j => .ok (coerceMeetingPrep j)) resp, 1)

/-- `src/docIngestService.ts` `validateRiskProfile`: a string equal to one
of the four valid profiles passes through; anything else (a non-string
shape included) gives `Moderate`. -/
def validateRiskProfile (v : Option Json) : String :=
  match v with
  | some (.str s) =>
      if s = "Conservative" ∨ s = "Moderate" ∨ s = "Moderate-Aggressive" ∨
          s = "Aggressive" then s
      else "Moderate"
  | _ => "Moderate"

/-- `src/docIngestService.ts`: a string field with a truthy-string default
(`(x as string) || dflt`). Non-string truthy values, which the source's
unchecked cast would let flow through, are modelled as taking the default;
no claim exercises them. -/
def strFieldOr (v : Option Json) (dflt : String) : String :=
  match v with
  | some (.str s) => if s = "" then dflt else s
  | _ => dflt

/-- `src/docIngestService.ts`: a numeric field accepted as a number or a
numeric string (`typeof x === 'number' ? x : parseFloat(x) || 0`); the
`|| 0` turns a `NaN` parse into 0, and a non-string non-number shape also
ends at 0 (`parseFloat` of such a value is `NaN`; leading-whitespace and
signed/exponent string forms are not modelled — no claim exercises them). -/
def numFieldOr0 (v : Option Json) : JsNum :=
  match v with
  | some (.num q) => some q
  | some (.str s) =>
      match jsParseFloat s with
      | some q => some q
      | none => some 0
  | _ => some 0

/-- `src/docIngestService.ts` `validateGoals`: a non-array gives the empty
list; each element is coerced field-by-field with synthesized default ids
`goal-doc-<idx>-<now>`. -/
def validateGoals (now : ℕ) (v : Option Json) : List Goal :=
  match v with
  | some (.arr elems) =>
      elems.mapIdx (fun idx g =>
        { id := strFieldOr (g.getField "id") ("goal-doc-" ++ toString idx ++ "-" ++ toString now)
        , name := strFieldOr (g.getField "name") "Unnamed Goal"
        , targetAmount := numFieldOr0 (g.getField "targetAmount")
        , currentAmount := numFieldOr0 (g.getField "currentAmount")
        , targetDate := strFieldOr (g.getField "targetDate") "1970-01-01" })
  | _ => []

/-- `src/docIngestService.ts` `validateAccounts`: a non-array gives the
empty list; unrecognized account types default to `Brokerage`. -/
def validateAccounts (now : ℕ) (v : Option Json) : List Account :=
  match v with
  | some (.arr elems) =>
      elems.mapIdx (fun idx a =>
        { id := strFieldOr (a.getField "id") ("acc-doc-" ++ toString idx ++ "-" ++ toString now)
        , name := strFieldOr (a.getField "name") "Unnamed Account"
        , type :=
            match a.getField "type" with
            | some (.str s) =>
                if s = "IRA" ∨ s = "Brokerage" ∨ s = "401k" ∨
                    s = "Roth IRA" ∨ s = "Trust" then s
                else "Brokerage"
            | _ => "Brokerage"
        , balance := numFieldOr0 (a.getField "balance") })
  | _ => []

/-- `src/docIngestService.ts` `parseClientFromDocuments`: the API key is
checked first — a falsy key throws before the documents are joined or any
request is sent. `now`/`today` thread `Date.now()` and the current ISO
date for the synthesized defaults. The second component counts the network
requests issued. -/
def parseClientFromDocuments (apiKey : Option String) (docs : List String)
    (now : ℕ) (today : String) (resp : Upstream) :
    Except AiError Client × ℕ :=
  if strTruthy apiKey = false then
    (.error (.configuration "Missing OpenAI API key. Set VITE_OPENAI_API_KEY in your .env file."), 0)
  else
    let _joinedDocs := String.intercalate "\n\n----\n\n" docs
    (handleUpstream "Failed to parse client data from documents. Please try again."
      (fun j => .ok
        { id := strFieldOr (j.getField "id") ("client-doc-" ++ toString now)
        , name := strFieldOr (j.getField "name") "Unknown Client"
        , aum := numFieldOr0 (j.getField "aum")
        , riskProfile := validateRiskProfile (j.getField "riskProfile")
        , advisor := strFieldOr (j.getField "advisor") "Unassigned"
        , lastContact := strFieldOr (j.getField "lastContact") today
        , goals := validateGoals now (j.getField "goals")
        , accounts := validateAccounts now (j.getField "accounts") })
      resp, 1)

/-- `src/unnamed/part_003`: the canned CRM result for `client-001`. The
module-initialization timestamp `new Date().toISOString()` is threaded as
`t0` (it is overwritten before the result is ever returned). -/
def mockCrmResult001 (t0 : String) : CRMUpdateResult :=
  { fieldUpdates :=
    [ { id := "fu-001", fieldName := "Target Retirement Age"
      , currentValue := "62", proposedValue := "60"
      , confidence := some (0.92 : ℚ)
      , sourceSnippet := "\"I\x27ve been thinking about maybe retiring a bit earlier, perhaps at 60 instead of 62.\"" }
    , { id := "fu-002", fieldName := "Risk Tolerance"
      , currentValue := "Moderate", proposedValue := "Moderate-Conservative"
      , confidence := some (0.78 : ℚ)
      , sourceSnippet := "\"Those October swings really made me nervous. I\x27m wondering if we should be more conservative.\"" }
    , { id := "fu-003", fieldName := "College Fund Target"
      , currentValue := "$250,000", proposedValue := "$300,000"
      , confidence := some (0.95 : ℚ)
      , sourceSnippet := "\"We might need to increase our college savings target. Georgetown is her top choice.\"" }
    , { id := "fu-004", fieldName := "Vacation Home Goal Status"
      , currentValue := "Active", proposedValue := "On Hold"
      , confidence := some (0.88 : ℚ)
      , sourceSnippet := "\"With the interest rates where they are, we\x27ve decided to wait another year or two on the beach house.\"" } ]
  , tasks :=
    [ { id := "task-001", owner := "Sarah Mitchell"
      , description := "Run retirement projections for age 60 scenario"
      , dueDate := some "2024-12-10", priority := "high" }
    , { id := "task-002", owner := "Sarah Mitchell"
      , description := "Send updated risk tolerance questionnaire to Margaret"
      , dueDate := some "2024-12-05", priority := "medium" }
    , { id := "task-003", owner := "Tax Team"
      , description := "Review tax-loss harvesting opportunities before year-end"
      , dueDate := some "2024-12-15", priority := "high" } ]
  , auditLog :=
    { summary := "Client expressed interest in earlier retirement (60 vs 62), increased college funding needs, and temporary pause on vacation home goal. Risk tolerance may need adjustment following market volatility concerns."
    , tags := ["retirement-planning", "risk-review", "education-funding", "goal-change"]
    , timestamp := t0 } }

/-- `src/unnamed/part_003`: the canned CRM result for `client-002`. -/
def mockCrmResult002 (t0 : String) : CRMUpdateResult :=
  { fieldUpdates :=
    [ { id := "fu-005", fieldName := "Charitable Giving Strategy"
      , currentValue := "Standard annual", proposedValue := "DAF bunching strategy"
      , confidence := some (0.94 : ℚ)
      , sourceSnippet := "\"We\x27d like to accelerate our donor-advised fund contributions. Can we discuss bunching our donations?\"" }
    , { id := "fu-006", fieldName := "Grandchildren 529 Plans"
      , currentValue := "None", proposedValue := "4 plans @ $50,000 each"
      , confidence := some (0.97 : ℚ)
      , sourceSnippet := "\"We\x27ve decided to set up 529 plans for all four grandchildren. About $50,000 each to start.\"" }
    , { id := "fu-007", fieldName := "RMD Planning Status"
      , currentValue := "Not started"
      , proposedValue := "Planning required (Robert turns 73 in 2025)"
      , confidence := some (0.91 : ℚ)
      , sourceSnippet := "\"What\x27s our plan for required minimum distributions? I\x27d prefer to minimize the tax hit.\"" }
    , { id := "fu-008", fieldName := "Boston Property Status"
      , currentValue := "Hold", proposedValue := "Considering sale"
      , confidence := some (0.85 : ℚ)
      , sourceSnippet := "\"We\x27re considering selling the Boston property. The management hassle isn\x27t worth it anymore.\"" }
    , { id := "fu-009", fieldName := "Roth Conversion Interest"
      , currentValue := "No", proposedValue := "Yes - modeling $200k-$500k tranches"
      , confidence := some (0.89 : ℚ)
      , sourceSnippet := "\"Can you run some scenarios on converting a portion of my 401k to Roth?\"" } ]
  , tasks :=
    [ { id := "task-004", owner := "Sarah Mitchell"
      , description := "Model Roth conversion scenarios ($200k, $350k, $500k tranches)"
      , dueDate := some "2024-12-12", priority := "high" }
    , { id := "task-005", owner := "Sarah Mitchell"
      , description := "Prepare DAF contribution strategy memo"
      , dueDate := some "2024-12-08", priority := "high" }
    , { id := "task-006", owner := "Operations"
      , description := "Initiate 529 plan setup for 4 grandchildren"
      , dueDate := some "2024-12-20", priority := "medium" }
    , { id := "task-007", owner := "Tax Team"
      , description := "Analyze tax implications of Boston property sale"
      , dueDate := some "2024-12-18", priority := "medium" } ]
  , auditLog :=
    { summary := "Year-end planning session covered charitable giving acceleration via DAF, new 529 plans for grandchildren ($200k total), upcoming RMD requirements, potential real estate disposition, and Roth conversion interest. Clients comfortable with current risk allocation."
    , tags := ["charitable-giving", "education-funding", "rmd-planning", "roth-conversion", "real-estate", "year-end-planning"]
    , timestamp := t0 } }

/-- `src/unnamed/part_003`: the `mockCrmResults` record keyed by client id. -/
def mockCrmResults (t0 : String) (clientId : String) : Option CRMUpdateResult :=
  if clientId = "client-001" then some (mockCrmResult001 t0)
  else if clientId = "client-002" then some (mockCrmResult002 t0)
  else none

/-- `src/unnamed/part_003` `generateCRMUpdate`: after a simulated delay
(irrelevant to the value), looks the client id up in the canned table; an
unknown id gets the empty result with the fixed summary; a known id gets
the canned result with `auditLog.timestamp` replaced by the current time
(`now`). The `_meetingNotes` argument is never read. -/
def generateCRMUpdate (t0 : String) (clientId : String)
    (_meetingNotes : String) (now : String) : CRMUpdateResult :=
  match mockCrmResults t0 clientId with
  | none =>
      { fieldUpdates := []
      , tasks := []
      , auditLog :=
        { summary := "No updates extracted from meeting notes."
        , tags := [], timestamp := now } }
  | some r => { r with auditLog := { r.auditLog with timestamp := now } }

/-! ## Helper lemmas -/

theorem strStartsWith_append (p r : String) : strStartsWith (p ++ r) p = true := by
  simp [strStartsWith, String.toList, String.data_append]

theorem applyClientOp_interactions (s : Storage) (op : ClientOp) :
    (applyClientOp s op).interactions = s.interactions := by
  cases op <;> rfl

theorem runClientOps_interactions (ops : List ClientOp) (s : Storage) :
    (runClientOps s ops).interactions = s.interactions := by
  induction ops generalizing s with
  | nil => rfl
  | cons op ops ih => rw [runClientOps, ih, applyClientOp_interactions]

theorem isCustomClient_addClient (cs : List Client) (d : ClientData) (now : ℕ)
    (rand : String) : isCustomClient (addClient cs d now rand).1.id = true := by
  show strStartsWith ("client-custom-" ++ toString now ++ "-" ++ rand) "client-custom-" = true
  rw [String.append_assoc, String.append_assoc]
  exact strStartsWith_append _ _

/-! ## Claim theorems -/

/-- C1: for every sequence of Client Store operations, the interactions
key is never written (only the custom-client list is), the clients visible
to the UI are always the unmodified built-ins followed by the customs —
so the built-in records' ids and data stay unchanged — and every client
returned by the create operation has an id satisfying `isCustomClient`. -/
theorem clientStore_preserves_builtins (s : Storage) (ops : List ClientOp) :
    (runClientOps s ops).interactions = s.interactions ∧
    getAllClients (runClientOps s ops) = mockClients ++ (runClientOps s ops).customClients ∧
    (getAllClients (runClientOps s ops)).take mockClients.length = mockClients ∧
    ∀ (cs : List Client) (d : ClientData) (now : ℕ) (rand : String),
      isCustomClient (addClient cs d now rand).1.id = true := by
  refine ⟨runClientOps_interactions ops s, rfl, ?_, isCustomClient_addClient⟩
  show (mockClients ++ (runClientOps s ops).customClients).take mockClients.length = mockClients
  exact List.take_left mockClients _

/-- C4 (amended): both storage reads are total and give the empty list
when the key is absent or its content unparseable; content that parses as
JSON is returned as-is, without shape validation — a parsed non-array
value is propagated (still without an error) rather than replaced by the
empty list. -/
theorem storage_reads_fail_soft :
    getCustomClientsRaw .absent = .arr [] ∧
    getCustomClientsRaw .unparseable = .arr [] ∧
    (∀ j, getCustomClientsRaw (.parsed j) = j) ∧
    getAllInteractionsRaw .absent = .arr [] ∧
    getAllInteractionsRaw .unparseable = .arr [] ∧
    (∀ j, getAllInteractionsRaw (.parsed j) = j) :=
  ⟨rfl, rfl, fun _ => rfl, rfl, rfl, fun _ => rfl⟩

/-- C4 counterexample: a storage key whose content parses to the JSON
number 42 is "otherwise corrupt" (parseable but not a client list), yet
`getCustomClients` returns that value itself, not an empty list. -/
theorem storage_reads_counterexample :
    getCustomClientsRaw (.parsed (.num 42)) = .num 42 ∧
    Json.num 42 ≠ .arr [] :=
  ⟨rfl, fun h => Json.noConfusion h⟩

/-- C6 (amended): whenever every client in the persisted custom list
carries the custom id prefix (as every client created by `addClient`
does), `deleteClient` of an id without that prefix — in particular of any
built-in id — returns `false` and leaves the persisted list unchanged
(and the built-in list is a constant no store operation writes). -/
theorem deleteClient_builtin_noop (cs : List Client) (id : String)
    (hall : ∀ c ∈ cs, isCustomClient c.id = true)
    (hid : isCustomClient id = false) :
    deleteClient cs id = (false, cs) := by
  have hne : ∀ c ∈ cs, ¬c.id = id := by
    intro c hc he
    have h1 := hall c hc
    rw [he, hid] at h1
    exact Bool.false_ne_true h1
  have hfilter : cs.filter (fun c => c.id ≠ id) = cs :=
    List.filter_eq_self.mpr (fun c hc => by simpa using hne c hc)
  simp only [deleteClient]
  simp [hfilter]
  exact hne

/-- C6 witness: deleting the built-in id `client-001` from a persisted
list holding one genuinely custom client is a `false`-returning no-op. -/
theorem deleteClient_builtin_noop_witness :
    deleteClient
      [{ id := "client-custom-1700000000000-ab12cd34e", name := "N"
       , aum := some 1000, riskProfile := "Moderate", goals := []
       , accounts := [], advisor := "A", lastContact := "2024-12-01" }]
      "client-001" =
    (false,
      [{ id := "client-custom-1700000000000-ab12cd34e", name := "N"
       , aum := some 1000, riskProfile := "Moderate", goals := []
       , accounts := [], advisor := "A", lastContact := "2024-12-01" }]) :=
  deleteClient_builtin_noop _ _ (by decide) (by decide)

/-- C6 counterexample: `deleteClient` checks nothing about provenance —
if the persisted custom list contains a record whose id equals a built-in
id (reachable through `updateClient`, whose `Partial<Client>` merge may
overwrite `id`), deleting that built-in id returns `true` and rewrites
the persisted list. -/
theorem deleteClient_builtin_counterexample :
    deleteClient
      [{ id := "client-001", name := "Rogue", aum := some 0
       , riskProfile := "Moderate", goals := [], accounts := []
       , advisor := "", lastContact := "" }]
      "client-001" = (true, []) := by
  decide

/-- C7: with a falsy API credential (unset or empty), both AI Adapter
operations fail with the missing-API-key configuration error and issue
zero network requests, whatever the network would have answered. -/
theorem missing_api_key_no_request (key : Option String)
    (resp resp2 : Upstream) (docs : List String) (now : ℕ) (today : String)
    (h : strTruthy key = false) :
    generateMeetingPrep key resp =
      (.error (.configuration "Missing OpenAI API key. Set VITE_OPENAI_API_KEY in your .env file."), 0) ∧
    parseClientFromDocuments key docs now today resp2 =
      (.error (.configuration "Missing OpenAI API key. Set VITE_OPENAI_API_KEY in your .env file."), 0) := by
  constructor <;> simp [generateMeetingPrep, parseClientFromDocuments, h]

/-- C7 witness: with no key configured, both operations fail with the
configuration error and zero requests at a concrete upstream outcome. -/
theorem missing_api_key_no_request_witness :
    generateMeetingPrep none (.content (some (.obj []))) =
      (.error (.configuration "Missing OpenAI API key. Set VITE_OPENAI_API_KEY in your .env file."), 0) ∧
    parseClientFromDocuments none ["doc one"] 1700000000000 "2024-12-01" (.content (some (.obj []))) =
      (.error (.configuration "Missing OpenAI API key. Set VITE_OPENAI_API_KEY in your .env file."), 0) :=
  missing_api_key_no_request none _ _ ["doc one"] 1700000000000 "2024-12-01" rfl

/-- C10: the mock CRM generation is total and its value never depends on
the meeting notes; the two built-in ids get their canned result with only
the audit-log timestamp refreshed to the current time, and every other id
gets the empty result with the fixed summary. -/
theorem generateCRMUpdate_spec (t0 notes notes2 now cid : String) :
    generateCRMUpdate t0 cid notes now = generateCRMUpdate t0 cid notes2 now ∧
    generateCRMUpdate t0 "client-001" notes now =
      { mockCrmResult001 t0 with
        auditLog := { (mockCrmResult001 t0).auditLog with timestamp := now } } ∧
    generateCRMUpdate t0 "client-002" notes now =
      { mockCrmResult002 t0 with
        auditLog := { (mockCrmResult002 t0).auditLog with timestamp := now } } ∧
    (cid ≠ "client-001" → cid ≠ "client-002" →
      generateCRMUpdate t0 cid notes now =
        { fieldUpdates := [], tasks := []
        , auditLog := { summary := "No updates extracted from meeting notes."
                      , tags := [], timestamp := now } }) := by
  refine ⟨rfl, rfl, rfl, fun h1 h2 => ?_⟩
  simp [generateCRMUpdate, mockCrmResults, h1, h2]

/-- C10 witness: at the unknown id `client-xyz` the result is the empty
one with the fixed summary, independent of the notes. -/
theorem generateCRMUpdate_spec_witness :
    generateCRMUpdate "T0" "client-xyz" "some notes" "NOW" =
      { fieldUpdates := [], tasks := []
      , auditLog := { summary := "No updates extracted from meeting notes."
                    , tags := [], timestamp := "NOW" } } :=
  (generateCRMUpdate_spec "T0" "some notes" "other notes" "NOW" "client-xyz").2.2.2
    (by decide) (by decide)

theorem orderedInsert_append_last (x m : Interaction) (l : List Interaction)
    (h : dateKey m.date < dateKey x.date) :
    List.orderedInsert descByDate x (l ++ [m]) =
      List.orderedInsert descByDate x l ++ [m] := by
  induction l with
  | nil =>
      simp [List.orderedInsert, if_pos (show descByDate x m from Nat.le_of_lt h)]
  | cons y ys ih =>
      by_cases hxy : descByDate x y
      · simp [List.orderedInsert, hxy]
      · simp [List.orderedInsert, hxy, ih]

theorem insertionSortDesc_append_last (m : Interaction) (l : List Interaction)
    (h : ∀ x ∈ l, dateKey m.date < dateKey x.date) :
    List.insertionSort descByDate (l ++ [m]) =
      List.insertionSort descByDate l ++ [m] := by
  induction l with
  | nil => rfl
  | cons x xs ih =>
      have hx := h x (List.mem_cons_self x xs)
      have hxs : ∀ y ∈ xs, dateKey m.date < dateKey y.date :=
        fun y hy => h y (List.mem_cons_of_mem x hy)
      show List.orderedInsert descByDate x (List.insertionSort descByDate (xs ++ [m])) = _
      rw [ih hxs, orderedInsert_append_last x m _ hx]
      rfl

/-- C2: `getClientInteractions` returns exactly the stored interactions
whose `clientId` equals the argument (a permutation of the filtered list),
sorted by event date descending; and appending an interaction for that
client whose event date is strictly earlier than every already-matching
one yields the previous result with that interaction last. -/
theorem getClientInteractions_spec (all : List Interaction) (cid : String) :
    (getClientInteractions all cid).Perm
      (all.filter (fun i => i.clientId == cid)) ∧
    (getClientInteractions all cid).Sorted descByDate ∧
    ∀ i : Interaction, i.clientId = cid →
      (∀ j ∈ all.filter (fun k => k.clientId == cid),
        dateKey i.date < dateKey j.date) →
      getClientInteractions (all ++ [i]) cid =
        getClientInteractions all cid ++ [i] := by
  refine ⟨List.perm_insertionSort descByDate _,
    List.sorted_insertionSort descByDate _, ?_⟩
  intro i hi hlt
  unfold getClientInteractions
  rw [List.filter_append]
  have hone : List.filter (fun k => k.clientId == cid) [i] = [i] := by
    simp [hi]
  rw [hone, insertionSortDesc_append_last i _ hlt]

/-- C2 witness: appending a strictly earlier interaction for the same
client places it last in the returned sequence. -/
theorem getClientInteractions_spec_witness :
    getClientInteractions
      ([{ id := "interaction-1", clientId := "client-001", type := "meeting"
        , title := "Review", date := "2024-11-15", notes := "n1"
        , actionItems := none, createdAt := "2024-11-15" }] ++
       [{ id := "interaction-2", clientId := "client-001", type := "call"
        , title := "Old call", date := "2024-01-02", notes := "n2"
        , actionItems := none, createdAt := "2024-12-01" }]) "client-001" =
    getClientInteractions
      [{ id := "interaction-1", clientId := "client-001", type := "meeting"
       , title := "Review", date := "2024-11-15", notes := "n1"
       , actionItems := none, createdAt := "2024-11-15" }] "client-001" ++
      [{ id := "interaction-2", clientId := "client-001", type := "call"
       , title := "Old call", date := "2024-01-02", notes := "n2"
       , actionItems := none, createdAt := "2024-12-01" }] :=
  (getClientInteractions_spec _ "client-001").2.2 _ rfl (by decide)

/-- C3 (code bug): `initializeSampleInteractions` seeds the `client-002`
sample set for every client id other than `client-001`. Called with a
custom client id on an empty store it therefore writes three `client-002`
interactions; since the custom id itself still has none, a second call
seeds them again — six interactions, doubled, and none of them for the
requested custom client. -/
theorem seedIfEmpty_custom_id_bug :
    (initializeSampleInteractions (([] : List Interaction), 0)
        "client-custom-a" "2024-12-01T00:00:00.000Z").1.length = 3 ∧
    (initializeSampleInteractions (initializeSampleInteractions
        (([] : List Interaction), 0) "client-custom-a" "2024-12-01T00:00:00.000Z")
        "client-custom-a" "2024-12-01T00:00:00.000Z").1.length = 6 ∧
    (initializeSampleInteractions (initializeSampleInteractions
        (([] : List Interaction), 0) "client-custom-a" "2024-12-01T00:00:00.000Z")
        "client-custom-a" "2024-12-01T00:00:00.000Z").1.all
      (fun i => i.clientId == "client-002") = true ∧
    getClientInteractions (initializeSampleInteractions (initializeSampleInteractions
        (([] : List Interaction), 0) "client-custom-a" "2024-12-01T00:00:00.000Z")
        "client-custom-a" "2024-12-01T00:00:00.000Z").1 "client-custom-a" = [] ∧
    (initializeSampleInteractions (initializeSampleInteractions
        (([] : List Interaction), 0) "client-002" "2024-12-01T00:00:00.000Z")
        "client-002" "2024-12-01T00:00:00.000Z").1.length = 3 := by
  refine ⟨rfl, rfl, rfl, rfl, rfl⟩

/-- C5 (amended): pipe-delimited line parsing maps position 0 to the name
(default "Goal"/"Account" when missing or empty), position 1 to target
amount or account type, position 2 to current amount or balance, position
3 (goals only) to the date (default: current date); a numeric field
defaults to 0 when missing or when stripping non-digit non-dot characters
leaves nothing, and otherwise takes the `parseFloat` of the stripped text
— whose failure yields `NaN`, not 0; the account type field is defaulted,
lower-cased and mapped through the fixed synonym table, with unrecognized
or missing types giving `Brokerage`. -/
theorem freeText_line_parsing (id today : String) :
    goalFromLine id today "Retirement | 3000000 | 2100000 | 2030-01-01" =
      createGoal id "Retirement" (some 3000000) (some 2100000) "2030-01-01" ∧
    goalFromLine id today "College" = createGoal id "College" (some 0) (some 0) today ∧
    goalFromLine id today " | 250000 | 180000" =
      createGoal id "Goal" (some 250000) (some 180000) today ∧
    accountFromLine id "My 401k | 401(k) | 50000" =
      createAccount id "My 401k" "401k" (some 50000) ∧
    accountFromLine id "Misc | unknown-type | 10" =
      createAccount id "Misc" "Brokerage" (some 10) ∧
    accountFromLine id "R | Roth IRA | 10" =
      createAccount id "R" "Roth IRA" (some 10) ∧
    accountFromLine id "A" = createAccount id "A" "Brokerage" (some 0) ∧
    numField none = some 0 ∧
    (∀ s, stripNonNumeric s = "" → numField (some s) = some 0) ∧
    (∀ s, stripNonNumeric s ≠ "" →
      numField (some s) = jsParseFloat (stripNonNumeric s)) ∧
    (∀ t, t ≠ "" →
      accountTypeOf (some t) = (typeMap.lookup (jsToLower t)).getD "Brokerage") ∧
    accountTypeOf none = "Brokerage" := by
  refine ⟨rfl, rfl, rfl, rfl, rfl, rfl, rfl, rfl, ?_, ?_, ?_, rfl⟩
  · intro s hs
    simp [numField, hs]
  · intro s hs
    simp [numField, hs]
  · intro t ht
    simp [accountTypeOf, partOr, ht]

/-- C5 witness: a field that strips to non-empty text is parsed from that
text, a non-empty type field goes through the lower-cased synonym lookup. -/
theorem freeText_line_parsing_witness :
    stripNonNumeric "$3,000.50" ≠ "" ∧
    numField (some "$3,000.50") = jsParseFloat (stripNonNumeric "$3,000.50") ∧
    ("unknown-type" : String) ≠ "" ∧
    accountTypeOf (some "unknown-type") =
      (typeMap.lookup (jsToLower "unknown-type")).getD "Brokerage" :=
  ⟨by decide,
   (freeText_line_parsing "goal-0" "2024-12-01").2.2.2.2.2.2.2.2.2.1
     "$3,000.50" (by decide),
   by decide,
   (freeText_line_parsing "goal-0" "2024-12-01").2.2.2.2.2.2.2.2.2.2.1
     "unknown-type" (by decide)⟩

/-- C5 counterexample: the goal line `"G | . | 5"` has a target field that
strips to `"."`, whose `parseFloat` fails — the stored target amount is
the `NaN` value, not the 0 the claim requires on parse failure. -/
theorem freeText_numeric_nan_counterexample :
    (goalFromLine "goal-0" "2024-12-01" "G | . | 5").targetAmount = none ∧
    (none : JsNum) ≠ some 0 := by
  refine ⟨by decide, by decide⟩

/-- C8 (amended): for every successfully parsed payload, each expected
string field passes a string through, maps `null`/absent to the empty
string and stringifies any other value; each expected list field maps an
array through elementwise `ensureString`, wraps a *truthy* non-array
scalar into a one-element list, and maps absent — and every other falsy
scalar, the empty string included — to the empty list; in particular a
payload whose `keyTopicsToDiscuss` is a single non-empty string yields
the one-element list holding that string. -/
theorem meetingPrep_coercion (j : Json) :
    (j.getField "clientSnapshot" = none ∨
        j.getField "clientSnapshot" = some .null →
      (coerceMeetingPrep j).clientSnapshot = "") ∧
    (∀ s, j.getField "clientSnapshot" = some (.str s) →
      (coerceMeetingPrep j).clientSnapshot = s) ∧
    (∀ v, j.getField "clientSnapshot" = some v → (∀ s, v ≠ .str s) →
        v ≠ .null →
      (coerceMeetingPrep j).clientSnapshot = Json.render v) ∧
    (j.getField "keyTopicsToDiscuss" = none →
      (coerceMeetingPrep j).keyTopicsToDiscuss = []) ∧
    (∀ v, j.getField "keyTopicsToDiscuss" = some v → v.truthy = false →
      (coerceMeetingPrep j).keyTopicsToDiscuss = []) ∧
    (∀ elems, j.getField "keyTopicsToDiscuss" = some (.arr elems) →
      (coerceMeetingPrep j).keyTopicsToDiscuss = elems.map ensureString) ∧
    (∀ v, j.getField "keyTopicsToDiscuss" = some v → v.truthy = true →
        (∀ elems, v ≠ .arr elems) →
      (coerceMeetingPrep j).keyTopicsToDiscuss = [ensureString v]) ∧
    (∀ s, s ≠ "" → j.getField "keyTopicsToDiscuss" = some (.str s) →
      (coerceMeetingPrep j).keyTopicsToDiscuss = [s]) := by
  refine ⟨?_, ?_, ?_, ?_, ?_, ?_, ?_, ?_⟩
  · rintro (h | h) <;> simp [coerceMeetingPrep, h, ensureStringOpt, ensureString]
  · intro s h
    simp [coerceMeetingPrep, h, ensureStringOpt, ensureString]
  · intro v h hnstr hnnull
    have : ensureString v = Json.render v := by
      cases v with
      | null => exact absurd rfl hnnull
      | str s => exact absurd rfl (hnstr s)
      | bool b => cases b <;> rfl
      | num q => rfl
      | arr elems => rfl
      | obj fields => rfl
    simp [coerceMeetingPrep, h, ensureStringOpt, this]
  · intro h
    simp [coerceMeetingPrep, h, ensureStringArray]
  · intro v h htr
    simp [coerceMeetingPrep, h, ensureStringArray, htr]
  · intro elems h
    simp [coerceMeetingPrep, h, ensureStringArray, Json.truthy]
  · intro v h htr hnarr
    have hv : ensureStringArray (some v) = [ensureString v] := by
      cases v with
      | arr elems => exact absurd rfl (hnarr elems)
      | null => exact absurd htr (by simp [Json.truthy])
      | bool b =>
          cases b
          · exact absurd htr (by simp [Json.truthy])
          · rfl
      | num q =>
          have hq : q ≠ 0 := by simpa [Json.truthy] using htr
          simp [ensureStringArray, Json.truthy, hq]
      | str s2 =>
          have hs2 : s2 ≠ "" := by simpa [Json.truthy] using htr
          simp [ensureStringArray, Json.truthy, hs2]
      | obj fields => rfl
    simp [coerceMeetingPrep, h, hv]
  · intro s hs h
    have hv : ensureStringArray (some (.str s)) = [s] := by
      simp [ensureStringArray, Json.truthy, ensureString, hs]
    simp [coerceMeetingPrep, h, hv]

/-- C8 witness: a payload whose `keyTopicsToDiscuss` is the single
non-empty string `"retirement planning"` coerces to the one-element list. -/
theorem meetingPrep_coercion_witness :
    ("retirement planning" : String) ≠ "" ∧
    (coerceMeetingPrep
        (.obj [("keyTopicsToDiscuss", .str "retirement planning")])).keyTopicsToDiscuss =
      ["retirement planning"] :=
  ⟨by decide,
   (meetingPrep_coercion (.obj [("keyTopicsToDiscuss", .str "retirement planning")])).2.2.2.2.2.2.2
     "retirement planning" (by decide) rfl⟩

/-- C8 counterexample: a payload whose `keyTopicsToDiscuss` is the single
*empty* string is falsy under `if (!value) return []`, so the result is
the empty list, not the one-element list `[""]` the claim requires for
every single-string payload. -/
theorem meetingPrep_coercion_counterexample :
    (coerceMeetingPrep
        (.obj [("keyTopicsToDiscuss", .str "")])).keyTopicsToDiscuss = [] ∧
    ([] : List String) ≠ [""] := by
  refine ⟨rfl, by simp⟩

theorem goal_decode_encode (id2 : String) (g : Goal) :
    goalVals (createGoal id2
      (jsFieldStr ((encodeGoal g).getField "name"))
      (jsFieldNum ((encodeGoal g).getField "targetAmount"))
      (jsFieldNum ((encodeGoal g).getField "currentAmount"))
      (jsFieldStr ((encodeGoal g).getField "targetDate"))) = goalVals g := by
  obtain ⟨gid, gname, gt, gc, gd⟩ := g
  cases gt <;> cases gc <;>
    simp [encodeGoal, Json.getField, jsFieldStr, jsFieldNum, goalVals,
      createGoal, List.lookup]

theorem account_decode_encode (id2 : String) (a : Account) :
    accountVals (createAccount id2
      (jsFieldStr ((encodeAccount a).getField "name"))
      (jsFieldStr ((encodeAccount a).getField "type"))
      (jsFieldNum ((encodeAccount a).getField "balance"))) = accountVals a := by
  obtain ⟨aid, aname, at2, ab⟩ := a
  cases ab <;>
    simp [encodeAccount, Json.getField, jsFieldStr, jsFieldNum, accountVals,
      createAccount, List.lookup]

theorem parseGoalsJson_encode_aux (gs : List Goal) : ∀ φ : ℕ → String,
    (((gs.map encodeGoal).mapIdx (fun idx e =>
      createGoal (φ idx)
        (jsFieldStr (e.getField "name"))
        (jsFieldNum (e.getField "targetAmount"))
        (jsFieldNum (e.getField "currentAmount"))
        (jsFieldStr (e.getField "targetDate")))).map goalVals)
      = gs.map goalVals := by
  induction gs with
  | nil => intro φ; rfl
  | cons g gs ih =>
      intro φ
      simp only [List.map_cons, List.mapIdx_cons]
      rw [goal_decode_encode (φ 0) g]
      exact congrArg (goalVals g :: ·) (ih (fun i => φ (i + 1)))

theorem parseAccountsJson_encode_aux (as : List Account) : ∀ φ : ℕ → String,
    (((as.map encodeAccount).mapIdx (fun idx e =>
      createAccount (φ idx)
        (jsFieldStr (e.getField "name"))
        (jsFieldStr (e.getField "type"))
        (jsFieldNum (e.getField "balance")))).map accountVals)
      = as.map accountVals := by
  induction as with
  | nil => intro φ; rfl
  | cons a as ih =>
      intro φ
      simp only [List.map_cons, List.mapIdx_cons]
      rw [account_decode_encode (φ 0) a]
      exact congrArg (accountVals a :: ·) (ih (fun i => φ (i + 1)))

/-- C9: parsing the JSON-array serialization of a goal list or an account
list back through the free-text record parser reproduces the original
records' values (names, amounts, types, dates) in order — only the ids,
which the parser always generates afresh, differ. -/
theorem parser_json_round_trip (gs : List Goal) (as : List Account)
    (genG genA : ℕ) (today : String) :
    (parseGoalsText today genG (.jsonOk (.arr (gs.map encodeGoal)))).map goalVals
      = gs.map goalVals ∧
    (parseAccountsText genA (.jsonOk (.arr (as.map encodeAccount)))).map accountVals
      = as.map accountVals := by
  constructor
  · show (parseGoalsJson genG (.arr (gs.map encodeGoal))).map goalVals = _
    unfold parseGoalsJson
    exact parseGoalsJson_encode_aux gs (fun idx => "goal-" ++ toString (genG + idx))
  · show (parseAccountsJson genA (.arr (as.map encodeAccount))).map accountVals = _
    unfold parseAccountsJson
    exact parseAccountsJson_encode_aux as (fun idx => "acc-" ++ toString (genA + idx))
